import Mathlib

/-!
Verification of the PyDiscordish chat server (src/server.py, src/client.py)
against its natural-language specification.

This file shallowly embeds the server-side session and room-management
engine: the shared registry (clients, rooms, user_rooms, room_passwords,
banned), the authentication handshake of handle_client, the command
dispatcher handle_command, and the broadcast/private/file routing of the
Active read loop.  Python dicts are modelled as association lists with
dict update semantics (update in place, insert at the end); Python sets of
usernames as duplicate-free lists; wall-clock instants (time.time()) as
rationals.  Network sends and log appends are modelled as an output list.
Emoji prefixes and quote punctuation inside the literal message strings of
the source are elided; the remaining text is kept verbatim so that
distinct server replies stay distinct.
-/

namespace PyChat

/-! ## Association lists with Python dict semantics -/

/-- Lookup in an association list (first binding wins, as in a dict with
unique keys). -/
def alookup {α : Type} : List (String × α) → String → Option α
  | [], _ => none
  | (k, v) :: t, k' => if k' = k then some v else alookup t k'

/-- Dict assignment d[k] = v: replace the first binding of k in place, or
append a new binding at the end (Python dicts preserve insertion order). -/
def aset {α : Type} : List (String × α) → String → α → List (String × α)
  | [], k, v => [(k, v)]
  | (k', v') :: t, k, v => if k' = k then (k, v) :: t else (k', v') :: aset t k v

/-- Dict deletion del d[k] / d.pop(k, None).  On the duplicate-free lists
produced by aset this agrees with removing the single binding of k. -/
def aerase {α : Type} (m : List (String × α)) (k : String) : List (String × α) :=
  m.filter (fun p => p.1 ≠ k)

/-! ## Python string helpers -/

/-- Python str.strip(): drop leading and trailing whitespace. -/
def pyStrip (s : String) : String :=
  String.mk (((s.toList.dropWhile Char.isWhitespace).reverse.dropWhile
    Char.isWhitespace).reverse)

/-- Python str.lower() (ASCII, which covers every command name). -/
def pyLower (s : String) : String :=
  String.mk (s.toList.map Char.toLower)

/-- One step of whitespace splitting: the leading token and the rest with
its leading whitespace removed.  The input starts with a non-space char. -/
def pySplitGo : Nat → List Char → List String
  | _, [] => []
  | 0, l => [String.mk l]
  | Nat.succ n, l =>
    let tok := l.takeWhile (fun c => ¬ c.isWhitespace)
    let rest := (l.dropWhile (fun c => ¬ c.isWhitespace)).dropWhile Char.isWhitespace
    String.mk tok :: pySplitGo n rest

/-- Python s.split(maxsplit = n): at most n splits on whitespace runs, the
remainder kept verbatim; empty tokens never appear. -/
def pySplitN (n : Nat) (s : String) : List String :=
  pySplitGo n (s.toList.dropWhile Char.isWhitespace)

/-- Python s.split() with no bound: s has at most s.length tokens. -/
def pySplit (s : String) : List String :=
  pySplitGo s.toList.length (s.toList.dropWhile Char.isWhitespace)

/-- Digits of a decimal numeral, or none when empty or non-digit. -/
def digitsToNat : List Char → Option Nat
  | [] => none
  | l => if l.all Char.isDigit
      then some (l.foldl (fun a c => a * 10 + (c.toNat - 48)) 0)
      else none

/-- Python int(s) on the shapes the protocol uses: optional minus sign and
decimal digits. -/
def pyToInt (s : String) : Option Int :=
  match s.toList with
  | '-' :: rest => (digitsToNat rest).map (fun n => -(n : Int))
  | l => (digitsToNat l).map (fun n => (n : Int))

/-- Insert into a le-sorted list of strings. -/
def insertSorted (x : String) : List String → List String
  | [] => [x]
  | y :: t => if x ≤ y then x :: y :: t else y :: insertSorted x t

/-- Insertion sort, modelling Python sorted() on usernames. -/
def insertionSort : List String → List String
  | [] => []
  | x :: t => insertSorted x (insertionSort t)

/-- The ", ".join(sorted(l)) or "(none)" pattern used by /list, /rooms and
/listbans. -/
def sortedNameList (l : List String) : String :=
  if l = [] then "(none)" else String.intercalate ", " (insertionSort l)

/-! ## Configuration and data model (src/server.py lines 16-46) -/

/-- MAX_FILE_SIZE = 200 * 1024 — identical in server.py line 21 and
client.py line 18. -/
def MAX_FILE_SIZE : Nat := 200 * 1024

/-- ADMIN_PASSWORD, server.py line 22. -/
def ADMIN_PASSWORD : String := "admin123"

/-- One entry of the clients dict: username to conn, addr, muted_until,
is_admin, joined (server.py line 42; the conn and addr are represented by
the username key in the output list). -/
structure ClientInfo where
  mutedUntil : Rat
  isAdmin : Bool
  joined : Rat
deriving Repr, DecidableEq

/-- The shared registry: the five module-level dicts and the set of server.py
lines 41-46 (clients, banned, rooms, user_rooms, room_passwords). -/
structure ServerState where
  clients : List (String × ClientInfo)
  banned : List String
  rooms : List (String × List String)
  userRooms : List (String × String)
  roomPasswords : List (String × String)
deriving Repr, DecidableEq

/-- Server-to-client wire messages (send_json payloads). -/
inductive Msg where
  | system (text : String)
  | chat (sender text : String) (timestamp : Rat)
  | priv (sender text : String) (timestamp : Rat)
  | typing (user : String) (status : Bool)
  | fileData (dst filename dataB64 : String) (size : Nat)
  | userlist (users : List String) (roomsMap : List (String × List String))
      (userRoomsMap : List (String × String))
deriving Repr, DecidableEq

/-- Observable effects of a handler invocation, in program order:
sends to a registered user, sends to the handler-local socket before
registration, socket closes, and save_log appends. -/
inductive Out where
  | reply (user : String) (msg : Msg)
  | toConn (msg : Msg)
  | closeConn
  | closeUser (user : String)
  | log (entry : String)
deriving Repr, DecidableEq

/-- Client-to-server request kinds of the Active state (section 6 of the
spec; the auth kind is handled separately by authPhase). -/
inductive Request where
  | broadcastReq (message : String)
  | privateReq (dst message : String)
  | commandReq (command : String)
  | typingReq (status : Bool)
  | fileReq (dst filename dataB64 : String) (size : Nat)
deriving Repr, DecidableEq

/-- The kinds gated by the mute check, server.py line 742. -/
def isChatKind : Request → Bool
  | .broadcastReq _ => true
  | .privateReq _ _ => true
  | _ => false

def isCommandKind : Request → Bool
  | .commandReq _ => true
  | _ => false

/-! ## Broadcast fan-out (server.py broadcast, lines 138-149, and
send_userlist, lines 164-177) -/

/-- broadcast(obj, exclude, room): deliver to every registered session not
in exclude, filtered to the room members (by the user_rooms pointer) when
a room is given. -/
def broadcastOuts (st : ServerState) (obj : Msg) (exclude : List String)
    (room : Option String) : List Out :=
  st.clients.filterMap fun p =>
    if p.1 ∈ exclude then none
    else
      match room with
      | some r => if alookup st.userRooms p.1 = some r then some (.reply p.1 obj) else none
      | none => some (.reply p.1 obj)

/-- send_userlist: push a fresh snapshot of users, rooms and user_rooms to
every session. -/
def userlistOuts (st : ServerState) : List Out :=
  st.clients.map fun p =>
    .reply p.1 (.userlist (st.clients.map (·.1)) st.rooms st.userRooms)

/-! ## remove_client (server.py lines 180-204) -/

/-- remove_client(username): pop the session, pop the room pointer, discard
the user from the room member set and delete the room when it empties;
when a session existed, close its connection and broadcast a leave notice
to the remaining sessions. -/
def removeClient (st : ServerState) (username : String) : ServerState × List Out :=
  let info := alookup st.clients username
  let room := alookup st.userRooms username
  let rooms' :=
    match room with
    | some r =>
      if username ∈ ((alookup st.rooms r).getD []) then
        let m' := ((alookup st.rooms r).getD []).filter (· ≠ username)
        if m' = [] then aerase st.rooms r else aset st.rooms r m'
      else st.rooms
    | none => st.rooms
  let st' : ServerState :=
    { st with
        clients := aerase st.clients username
        userRooms := aerase st.userRooms username
        rooms := rooms' }
  match info with
  | none => (st', [])
  | some _ =>
    (st', .closeUser username ::
      broadcastOuts st' (.system (username ++ " left the chat.")) [] none
      ++ [.log ("LEAVE: " ++ username ++ " left the chat.")])

/-! ## Command processor (server.py handle_command, lines 250-574).
The bodies of the /create, /join and /leave branches and the admin command
branches are factored into named functions taking the already parsed
arguments; handleCommand below performs the parsing and dispatch exactly
as the source elif chain does. -/

/-- The /create branch (server.py lines 299-325).  Note that the sender is
NOT removed from a previous room: only rooms[room] and user_rooms[sender]
are written. -/
def cmdCreate (st : ServerState) (sender room pwd : String) : ServerState × List Out :=
  if (alookup st.rooms room).isSome then
    (st, [.reply sender (.system ("Room " ++ room ++ " already exists."))])
  else
    let st' : ServerState :=
      { st with
          rooms := aset st.rooms room [sender]
          userRooms := aset st.userRooms sender room
          roomPasswords :=
            if pwd ≠ "" then aset st.roomPasswords room pwd else st.roomPasswords }
    let createdMsg :=
      if pwd ≠ "" then "Created room " ++ room ++ " (password protected)"
      else "Created room " ++ room
    (st', .reply sender (.system createdMsg) ::
      broadcastOuts st' (.system (sender ++ " created room " ++ room)) [] none
      ++ [.log ("ROOM: " ++ sender ++ " created " ++ room)]
      ++ userlistOuts st')

/-- The part of the /join branch after the password gate (server.py lines
346-363): leave the previous room if any (deleting it when it empties and
broadcasting a leave notice), then enter the target room, announcing to
the joiner and to the room. -/
def cmdJoinBody (st : ServerState) (sender room : String) : ServerState × List Out :=
  let prev := alookup st.userRooms sender
  let step1 : ServerState × List Out :=
    match prev with
    | some pr =>
      if sender ∈ ((alookup st.rooms pr).getD []) then
        let m' := ((alookup st.rooms pr).getD []).filter (· ≠ sender)
        let stA : ServerState :=
          { st with rooms := if m' = [] then aerase st.rooms pr else aset st.rooms pr m' }
        (stA, broadcastOuts stA (.system (sender ++ " left room " ++ pr)) [] none)
      else (st, [])
    | none => (st, [])
  let st1 := step1.1
  let members := (alookup st1.rooms room).getD []
  let members' := if sender ∈ members then members else members ++ [sender]
  let st2 : ServerState :=
    { st1 with
        rooms := aset st1.rooms room members'
        userRooms := aset st1.userRooms sender room }
  (st2, step1.2
    ++ [.reply sender (.system ("You joined room " ++ room ++ "."))]
    ++ broadcastOuts st2 (.system (sender ++ " joined room " ++ room ++ ".")) [] (some room)
    ++ [.log ("ROOM: " ++ sender ++ " joined " ++ room)]
    ++ userlistOuts st2)

/-- The /join branch (server.py lines 328-363): a stored room password must
match exactly; a password supplied for a brand-new room name with no stored
password is adopted as that room's password. -/
def cmdJoin (st : ServerState) (sender room pwd : String) : ServerState × List Out :=
  match alookup st.roomPasswords room with
  | some stored =>
    if stored ≠ pwd then
      (st, [.reply sender (.system "Incorrect room password.")])
    else cmdJoinBody st sender room
  | none =>
    let st0 : ServerState :=
      if pwd ≠ "" ∧ (alookup st.rooms room).isNone then
        { st with roomPasswords := aset st.roomPasswords room pwd }
      else st
    cmdJoinBody st0 sender room

/-- The /leave branch (server.py lines 366-382).  When user_rooms names a
room absent from rooms, rooms[current_room] raises KeyError, which the
handle_command except clause turns into a Command error reply. -/
def cmdLeave (st : ServerState) (sender : String) : ServerState × List Out :=
  match alookup st.userRooms sender with
  | none => (st, [.reply sender (.system "You are not in any room.")])
  | some r =>
    match alookup st.rooms r with
    | none => (st, [.reply sender (.system ("Command error: " ++ r))])
    | some mem =>
      let m' := mem.filter (· ≠ sender)
      let st' : ServerState :=
        { st with
            rooms := if m' = [] then aerase st.rooms r else aset st.rooms r m'
            userRooms := aerase st.userRooms sender }
      (st', .reply sender (.system ("You left room " ++ r ++ ".")) ::
        broadcastOuts st' (.system (sender ++ " left room " ++ r ++ ".")) [] none
        ++ [.log ("ROOM: " ++ sender ++ " left " ++ r)]
        ++ userlistOuts st')

/-- The /mute branch body, admin rights already established (server.py
lines 408-433). -/
def cmdMute (st : ServerState) (sender cmd : String) (now : Rat) : ServerState × List Out :=
  let cp := pySplit cmd
  if cp.length < 3 then (st, [.reply sender (.system "Usage: /mute username seconds")])
  else
    let target := cp.getD 1 ""
    match pyToInt (cp.getD 2 "") with
    | none => (st, [.reply sender (.system "Invalid seconds value")])
    | some seconds =>
      match alookup st.clients target with
      | none => (st, [.reply sender (.system ("User " ++ target ++ " not found."))])
      | some ti =>
        let st' : ServerState :=
          { st with clients := aset st.clients target { ti with mutedUntil := now + seconds } }
        (st', .reply target (.system ("You are muted for " ++ toString seconds ++ " seconds.")) ::
          broadcastOuts st' (.system (target ++ " was muted by " ++ sender ++ " for "
            ++ toString seconds ++ "s.")) [] none
          ++ [.log ("MUTE: " ++ target ++ " was muted by " ++ sender)])

/-- The /unmute branch body (server.py lines 436-455). -/
def cmdUnmute (st : ServerState) (sender cmd : String) : ServerState × List Out :=
  let cp := pySplit cmd
  if cp.length < 2 then (st, [.reply sender (.system "Usage: /unmute username")])
  else
    let target := cp.getD 1 ""
    match alookup st.clients target with
    | none => (st, [.reply sender (.system ("User " ++ target ++ " not found."))])
    | some ti =>
      let st' : ServerState :=
        { st with clients := aset st.clients target { ti with mutedUntil := 0 } }
      (st', .reply target (.system "You are no longer muted.") ::
        broadcastOuts st' (.system (target ++ " was unmuted by " ++ sender ++ ".")) [] none
        ++ [.log ("UNMUTE: " ++ target ++ " was unmuted by " ++ sender)])

/-- The /kick branch body (server.py lines 458-477). -/
def cmdKick (st : ServerState) (sender cmd : String) : ServerState × List Out :=
  let cp := pySplit cmd
  if cp.length < 2 then (st, [.reply sender (.system "Usage: /kick username")])
  else
    let target := cp.getD 1 ""
    match alookup st.clients target with
    | none => (st, [.reply sender (.system ("User " ++ target ++ " not found."))])
    | some _ =>
      let rem := removeClient st target
      (rem.1, .reply target (.system "You were kicked by an admin.") :: rem.2
        ++ broadcastOuts rem.1 (.system (target ++ " was kicked by " ++ sender ++ ".")) [] none
        ++ [.log ("KICK: " ++ target ++ " was kicked by " ++ sender)])

/-- The /ban branch body (server.py lines 480-495): the target is added to
the ban set whether connected or not, the ban is broadcast (the target is
still registered then), and only afterwards is the target removed. -/
def cmdBan (st : ServerState) (sender cmd : String) : ServerState × List Out :=
  let cp := pySplit cmd
  if cp.length < 2 then (st, [.reply sender (.system "Usage: /ban username")])
  else
    let target := cp.getD 1 ""
    let stB : ServerState :=
      { st with banned := if target ∈ st.banned then st.banned else st.banned ++ [target] }
    let outs1 := broadcastOuts stB (.system (target ++ " was banned by " ++ sender ++ ".")) [] none
      ++ [.log ("BAN: " ++ target ++ " was banned by " ++ sender)]
    let rem := removeClient stB target
    (rem.1, outs1 ++ rem.2)

/-- The /unban branch body (server.py lines 498-515). -/
def cmdUnban (st : ServerState) (sender cmd : String) : ServerState × List Out :=
  let cp := pySplit cmd
  if cp.length < 2 then (st, [.reply sender (.system "Usage: /unban username")])
  else
    let target := cp.getD 1 ""
    if target ∈ st.banned then
      let st' : ServerState := { st with banned := st.banned.filter (· ≠ target) }
      (st', broadcastOuts st' (.system (target ++ " was unbanned by " ++ sender ++ ".")) [] none
        ++ [.log ("UNBAN: " ++ target ++ " was unbanned by " ++ sender)])
    else (st, [.reply sender (.system ("User " ++ target ++ " is not banned."))])

/-- The static /help reply (server.py lines 539-565), condensed to one
line; the admin section is appended for admins. -/
def helpText (isAdmin : Bool) : String :=
  let base := "AVAILABLE COMMANDS: /help /? /list /users /whoami /me /create /join /leave /rooms /admin"
  if isAdmin then base ++ " ADMIN COMMANDS: /kick /ban /unban /mute /unmute /listbans /announce"
  else base

/-- The admin-gated command names, i.e. the elif arms of the form
cmd0 == name and admin_required(). -/
def adminCommands : List String :=
  ["/mute", "/unmute", "/kick", "/ban", "/unban", "/listbans", "/announce"]

/-- Every command name the dispatch chain recognizes. -/
def allCommands : List String :=
  ["/admin", "/list", "/users", "/whoami", "/create", "/join", "/leave", "/rooms",
   "/me", "/mute", "/unmute", "/kick", "/ban", "/unban", "/listbans", "/announce",
   "/help", "/?"]

/-- handle_command(sender, cmd) (server.py lines 250-574): parse the first
token, look the sender up, then dispatch along the elif chain.  The arms
guarded by admin_required() have conditions with a side effect: when cmd0
names an admin command and the sender is not an admin, admin_required()
sends its notice, the condition is false, and control falls through every
remaining elif into the final else, so the generic unknown-command reply
follows the admin-required notice. -/
def handleCommand (st : ServerState) (sender cmd : String) (now : Rat) : ServerState × List Out :=
  match pySplitN 1 cmd with
  | [] => (st, [])
  | cmd0raw :: rest =>
    let cmd0 := pyLower cmd0raw
    match alookup st.clients sender with
    | none => (st, [])
    | some senderInfo =>
      if cmd0 = "/admin" then
        let cp := pySplit cmd
        if 2 ≤ cp.length ∧ cp.getD 1 "" = ADMIN_PASSWORD then
          let st' : ServerState :=
            { st with clients := aset st.clients sender { senderInfo with isAdmin := true } }
          (st', broadcastOuts st' (.system (sender ++ " is now an admin.")) [] none
            ++ [.log ("ADMIN: " ++ sender ++ " is now an admin.")])
        else (st, [.reply sender (.system "Invalid admin password.")])
      else if cmd0 = "/list" ∨ cmd0 = "/users" then
        (st, [.reply sender (.system ("Online Users: " ++ sortedNameList (st.clients.map (·.1))))])
      else if cmd0 = "/whoami" then
        (st, [.reply sender (.system ("You are: " ++ sender))])
      else if cmd0 = "/create" then
        let cp := pySplitN 2 cmd
        if cp.length < 2 then (st, [.reply sender (.system "Usage: /create room_name [password]")])
        else cmdCreate st sender (cp.getD 1 "") (cp.getD 2 "")
      else if cmd0 = "/join" then
        let cp := pySplitN 2 cmd
        if cp.length < 2 then (st, [.reply sender (.system "Usage: /join room_name [password]")])
        else cmdJoin st sender (cp.getD 1 "") (cp.getD 2 "")
      else if cmd0 = "/leave" then cmdLeave st sender
      else if cmd0 = "/rooms" then
        (st, [.reply sender (.system ("Available rooms: " ++ sortedNameList (st.rooms.map (·.1))))])
      else if cmd0 = "/me" then
        match rest with
        | [] => (st, [.reply sender (.system "Usage: /me <action>")])
        | action :: _ =>
          (st, broadcastOuts st (.chat sender (sender ++ " " ++ action) now) [sender]
              (alookup st.userRooms sender)
            ++ [.log ("ACTION: " ++ sender ++ " " ++ action)])
      else if cmd0 = "/mute" ∧ senderInfo.isAdmin then cmdMute st sender cmd now
      else if cmd0 = "/unmute" ∧ senderInfo.isAdmin then cmdUnmute st sender cmd
      else if cmd0 = "/kick" ∧ senderInfo.isAdmin then cmdKick st sender cmd
      else if cmd0 = "/ban" ∧ senderInfo.isAdmin then cmdBan st sender cmd
      else if cmd0 = "/unban" ∧ senderInfo.isAdmin then cmdUnban st sender cmd
      else if cmd0 = "/listbans" ∧ senderInfo.isAdmin then
        (st, [.reply sender (.system ("Banned users: " ++ sortedNameList st.banned))])
      else if cmd0 = "/announce" ∧ senderInfo.isAdmin then
        match rest with
        | [] => (st, [.reply sender (.system "Usage: /announce <message>")])
        | txt :: _ =>
          (st, broadcastOuts st (.system ("[ANNOUNCEMENT] " ++ txt)) [] none
            ++ [.log ("ANNOUNCE: [ANNOUNCEMENT] " ++ txt)])
      else if cmd0 = "/help" ∨ cmd0 = "/?" then
        (st, [.reply sender (.system (helpText senderInfo.isAdmin))])
      else
        let adminNote :=
          if cmd0 ∈ adminCommands ∧ ¬ senderInfo.isAdmin then
            [Out.reply sender (.system "Admin rights required.")]
          else []
        (st, adminNote ++ [.reply sender (.system "Unknown command. Use /help for help.")])

/-! ## The Active read loop body (server.py handle_client, lines 692-816) -/

/-- The auto-unmute step (lines 737-739): when muted_until lies in the
past, write 0 into the session entry; otherwise leave the state alone. -/
def muteRefresh (st : ServerState) (username : String) (now : Rat) : ServerState :=
  match alookup st.clients username with
  | none => st
  | some info =>
    if info.mutedUntil < now then
      { st with clients := aset st.clients username { info with mutedUntil := 0 } }
    else st

/-- The mute test of line 742: muted_until strictly in the future. -/
def isMutedNow (st : ServerState) (username : String) (now : Rat) : Bool :=
  match alookup st.clients username with
  | none => false
  | some info => info.mutedUntil > now

/-- The per-kind dispatch (lines 750-812), reached when the request is not
suppressed by the mute gate. -/
def dispatchActive (st : ServerState) (username : String) (now : Rat) (req : Request) :
    ServerState × List Out :=
  match req with
  | .broadcastReq msg =>
    (st, broadcastOuts st (.chat username msg now) [username] (alookup st.userRooms username)
      ++ [.log (username ++ ": " ++ msg)])
  | .privateReq dst msg =>
    match alookup st.clients dst with
    | some _ =>
      (st, [.reply dst (.priv username msg now), .reply username (.priv username msg now),
        .log (username ++ " -> " ++ dst ++ ": " ++ msg)])
    | none => (st, [.reply username (.system ("User " ++ dst ++ " not found."))])
  | .commandReq c => handleCommand st username c now
  | .typingReq status =>
    (st, broadcastOuts st (.typing username status) [username] none)
  | .fileReq dst filename dataB64 size =>
    let logOut := Out.log ("FILE: " ++ username ++ " sent " ++ filename
      ++ " (" ++ toString size ++ "B) to " ++ dst)
    if dst = "All" then
      (st, logOut :: broadcastOuts st (.fileData dst filename dataB64 size) [username]
        (alookup st.userRooms username))
    else
      match alookup st.clients dst with
      | some _ => (st, [logOut, .reply dst (.fileData dst filename dataB64 size)])
      | none => (st, [logOut])

/-- One iteration of the Active message loop for one parsed request
(server.py lines 729-812): fetch the session (stop silently when it was
removed), refresh the mute flag, suppress muted broadcast and private
requests with a notice, otherwise dispatch. -/
def processRequest (st : ServerState) (username : String) (now : Rat) (req : Request) :
    ServerState × List Out :=
  match alookup st.clients username with
  | none => (st, [])
  | some _ =>
    let st1 := muteRefresh st username now
    if isMutedNow st1 username now && isChatKind req then
      (st1, [.reply username (.system "You are muted.")])
    else dispatchActive st1 username now req

/-! ## Authentication handshake (server.py handle_client lines 580-689,
handle_join lines 207-244, register_user / authenticate_user lines
112-125) -/

/-- The users.json credential map. -/
abbrev UsersDb := List (String × String)

/-- register_user: insert the credentials iff the username is fresh. -/
def registerUser (users : UsersDb) (u p : String) : UsersDb × Bool :=
  if (alookup users u).isSome then (users, false) else (aset users u p, true)

/-- authenticate_user: users.get(username) == password. -/
def authenticateUser (users : UsersDb) (u p : String) : Bool :=
  alookup users u == some p

/-- The first authentication frame: username, password, register flag. -/
structure AuthRequest where
  username : String
  password : String
  register : Bool
deriving Repr, DecidableEq

/-- handle_join(conn, addr, username): reject empty, banned or duplicate
usernames (closing the connection), else register a fresh session and
announce it.  The username arrives already stripped. -/
def handleJoin (st : ServerState) (now : Rat) (username : String) :
    ServerState × List Out × Bool :=
  if username = "" then
    (st, [.toConn (.system "Empty username rejected."), .closeConn], false)
  else if username ∈ st.banned then
    (st, [.toConn (.system "You are banned from this server."), .closeConn], false)
  else if (alookup st.clients username).isSome then
    (st, [.toConn (.system "Username already in use."), .closeConn], false)
  else
    let st' : ServerState :=
      { st with clients := aset st.clients username ⟨0, false, now⟩ }
    (st', broadcastOuts st' (.system (username ++ " joined the chat.")) [] none
      ++ userlistOuts st'
      ++ [.log ("JOIN: " ++ username)], true)

/-- The finally clause of handle_client (lines 831-833): every return once
the local variable username holds a non-empty string runs
remove_client(username) — including the rejection paths that never
registered this handler's connection. -/
def authFinally (users : UsersDb) (st : ServerState) (username : String)
    (outs : List Out) : UsersDb × ServerState × List Out × Bool :=
  let rem := removeClient st username
  (users, rem.1, outs ++ rem.2, false)

/-- Shared tail of both auth orderings: the auth-success notice, the
handle_join outcome, and on success the welcome notice; a failed join
returns into the finally clause. -/
def finishAuth (users : UsersDb) (username : String)
    (jr : ServerState × List Out × Bool) : UsersDb × ServerState × List Out × Bool :=
  if jr.2.2 then
    (users, jr.1,
      .toConn (.system "Authentication successful!") :: jr.2.1
        ++ [.toConn (.system ("Welcome to PyDiscordish, " ++ username
              ++ "! Type /help for commands."))],
      true)
  else
    authFinally users jr.1 username (.toConn (.system "Authentication successful!") :: jr.2.1)

/-- The authentication phase of handle_client (lines 607-689 plus the
finally clause), for one auth frame.  Result: the possibly updated
credential db, the registry state after the call returns or enters the
Active loop, the outputs, and whether the session became Active.
Check order as in the source: empty username, short username, empty
password, short password, register flag, credential check, then
handle_join (where the ban and duplicate checks live). -/
def authPhase (users : UsersDb) (st : ServerState) (now : Rat) (req : AuthRequest) :
    UsersDb × ServerState × List Out × Bool :=
  if pyStrip req.username = "" then
    (users, st, [.toConn (.system "Username cannot be empty."), .closeConn], false)
  else if (pyStrip req.username).length < 3 then
    authFinally users st (pyStrip req.username)
      [.toConn (.system "Username must be at least 3 characters."), .closeConn]
  else if pyStrip req.password = "" then
    authFinally users st (pyStrip req.username)
      [.toConn (.system "Password cannot be empty."), .closeConn]
  else if (pyStrip req.password).length < 4 then
    authFinally users st (pyStrip req.username)
      [.toConn (.system "Password must be at least 4 characters."), .closeConn]
  else if req.register then
    let r := registerUser users (pyStrip req.username) (pyStrip req.password)
    authFinally r.1 st (pyStrip req.username)
      [.toConn (.system (if r.2 then
          "Account " ++ pyStrip req.username ++ " created successfully! Please login."
        else
          "Username " ++ pyStrip req.username ++ " already exists. Please choose another.")),
       .closeConn]
  else if authenticateUser users (pyStrip req.username) (pyStrip req.password) = false then
    authFinally users st (pyStrip req.username)
      [.toConn (.system "Invalid username or password. Please try again."), .closeConn]
  else
    finishAuth users (pyStrip req.username) (handleJoin st now (pyStrip req.username))

/-- Modelled from the claim of C4 (spec section 4.2): the same handshake
but with the ban-list check applied after the password length check and
before the register-or-credential check, as the claimed validation order
states.  Used only for comparison with authPhase. -/
def authPhaseClaimOrder (users : UsersDb) (st : ServerState) (now : Rat)
    (req : AuthRequest) : UsersDb × ServerState × List Out × Bool :=
  if pyStrip req.username = "" then
    (users, st, [.toConn (.system "Username cannot be empty."), .closeConn], false)
  else if (pyStrip req.username).length < 3 then
    authFinally users st (pyStrip req.username)
      [.toConn (.system "Username must be at least 3 characters."), .closeConn]
  else if pyStrip req.password = "" then
    authFinally users st (pyStrip req.username)
      [.toConn (.system "Password cannot be empty."), .closeConn]
  else if (pyStrip req.password).length < 4 then
    authFinally users st (pyStrip req.username)
      [.toConn (.system "Password must be at least 4 characters."), .closeConn]
  else if pyStrip req.username ∈ st.banned then
    authFinally users st (pyStrip req.username)
      [.toConn (.system "You are banned from this server."), .closeConn]
  else if req.register then
    let r := registerUser users (pyStrip req.username) (pyStrip req.password)
    authFinally r.1 st (pyStrip req.username)
      [.toConn (.system (if r.2 then
          "Account " ++ pyStrip req.username ++ " created successfully! Please login."
        else
          "Username " ++ pyStrip req.username ++ " already exists. Please choose another.")),
       .closeConn]
  else if authenticateUser users (pyStrip req.username) (pyStrip req.password) = false then
    authFinally users st (pyStrip req.username)
      [.toConn (.system "Invalid username or password. Please try again."), .closeConn]
  else
    finishAuth users (pyStrip req.username) (handleJoin st now (pyStrip req.username))

/-! ## Client-side upload gate (src/client.py upload_file, lines 1638-1680) -/

/-- What upload_file does with a chosen file: an error dialog, or a file
request handed to the network layer. -/
inductive UploadAction where
  | errorDialog (title text : String)
  | send (req : Request)
deriving Repr, DecidableEq

/-- upload_file: sizes above MAX_FILE_SIZE raise the File Too Large dialog
naming the limit in KB and nothing is sent; otherwise the file request is
sent to the server. -/
def clientUploadFile (size : Nat) (target filename dataB64 : String) : UploadAction :=
  if size > MAX_FILE_SIZE then
    .errorDialog "File Too Large"
      ("File must be smaller than " ++ toString (MAX_FILE_SIZE / 1024) ++ " KB")
  else
    .send (.fileReq (if target = "" then "All" else target) filename dataB64 size)

/-! ## Exception isolation in the Active loop (server.py lines 570-574 and
750-816) -/

/-- What the sender receives and whether the read loop continues when the
handler body for a request raises an exception with text e.  The
command kind is handled inside handle_command, whose own except clause
replies with a Command error notice; every other kind is covered by the
except of the Active loop (lines 814-816), which only logs to the server
GUI and sends nothing.  Both catches fall back into the for loop, so the
session continues in every case. -/
def exceptionOutcome (sender : String) (req : Request) (e : String) : List Out × Bool :=
  match req with
  | .commandReq _ => ([.reply sender (.system ("Command error: " ++ e))], true)
  | _ => ([], true)

/-! ## The room-membership invariant (spec sections 3 and 8) -/

/-- The member set of a room (empty when the room is absent). -/
def membersOf (st : ServerState) (r : String) : List String :=
  (alookup st.rooms r).getD []

/-- Mutual consistency of a rooms map and a user_rooms map: a user is in
a room's member set exactly when the user's current-room pointer names
that room.  This also gives that a user is in at most one member set. -/
def RoomInvMaps (rooms : List (String × List String))
    (ur : List (String × String)) : Prop :=
  ∀ r u, u ∈ (alookup rooms r).getD [] ↔ alookup ur u = some r

/-- The claimed invariant, for the registry state. -/
def RoomInv (st : ServerState) : Prop :=
  RoomInvMaps st.rooms st.userRooms

/-- The membership-mutating operations of claim C2 other than /create:
the /join and /leave command bodies and the disconnect/kick path. -/
inductive MembershipOp where
  | join (sender room pwd : String)
  | leave (sender : String)
  | disconnect (user : String)
deriving Repr, DecidableEq

def applyOp (st : ServerState) : MembershipOp → ServerState
  | .join s r p => (cmdJoin st s r p).1
  | .leave s => (cmdLeave st s).1
  | .disconnect u => (removeClient st u).1

def applyOps (st : ServerState) (ops : List MembershipOp) : ServerState :=
  ops.foldl applyOp st

/-! ## Concrete registry states used by the concrete checks -/

/-- alice alone, not muted, not admin. -/
def stAlice : ServerState := ⟨[("alice", ⟨0, false, 0⟩)], [], [], [], []⟩

/-- alice and bob, both members of room r. -/
def stAliceBob : ServerState :=
  ⟨[("alice", ⟨0, false, 0⟩), ("bob", ⟨0, false, 0⟩)], [],
   [("r", ["alice", "bob"])], [("alice", "r"), ("bob", "r")], []⟩

/-- As stAliceBob but alice is muted until time 10. -/
def stMutedAlice : ServerState :=
  ⟨[("alice", ⟨10, false, 0⟩), ("bob", ⟨0, false, 0⟩)], [],
   [("r", ["alice", "bob"])], [("alice", "r"), ("bob", "r")], []⟩

/-- uma alone as the sole member of the password-protected room g. -/
def stSolo : ServerState :=
  ⟨[("uma", ⟨0, false, 0⟩)], [], [("g", ["uma"])], [("uma", "g")], [("g", "pw1")]⟩

/-- mallory is banned; nobody is connected. -/
def stBannedMallory : ServerState := ⟨[], ["mallory"], [], [], []⟩

/-- The empty registry. -/
def stEmpty : ServerState := ⟨[], [], [], [], []⟩

/-! ## Preservation of the room-membership invariant -/

theorem alookup_aset {α : Type} (m : List (String × α)) (k k' : String) (v : α) :
    alookup (aset m k v) k' = if k' = k then some v else alookup m k' := by
  induction m with
  | nil => simp [aset, alookup]
  | cons h t ih =>
    by_cases hk : h.1 = k
    · subst hk
      by_cases hk' : k' = h.1 <;> simp [aset, alookup, hk']
    · by_cases hk' : k' = h.1
      · subst hk'
        simp [aset, alookup, hk, Ne.symm hk]
      · simp [aset, alookup, hk, hk', ih]

theorem alookup_aset_self {α : Type} (m : List (String × α)) (k : String) (v : α) :
    alookup (aset m k v) k = some v := by
  simp [alookup_aset]

theorem alookup_aset_ne {α : Type} (m : List (String × α)) (k k' : String) (v : α)
    (h : k' ≠ k) : alookup (aset m k v) k' = alookup m k' := by
  simp [alookup_aset, h]

theorem alookup_aerase {α : Type} (m : List (String × α)) (k k' : String) :
    alookup (aerase m k) k' = if k' = k then none else alookup m k' := by
  induction m with
  | nil => simp [aerase, alookup]
  | cons h t ih =>
    by_cases hk : h.1 = k
    · by_cases hk' : k' = k
      · simp [aerase, List.filter_cons, alookup, hk, hk'] at ih ⊢
        simpa [hk'] using ih
      · have hne : k' ≠ h.1 := fun hc => hk' (hc.trans hk)
        simp [aerase, List.filter_cons, alookup, hk, hk', hne] at ih ⊢
        simpa [hk'] using ih
    · by_cases hk' : k' = h.1
      · have hne : k' ≠ k := fun hc => hk (hk' ▸ hc)
        simp [aerase, List.filter_cons, alookup, hk, hk', hne]
      · simp [aerase, List.filter_cons, alookup, hk, hk'] at ih ⊢
        exact ih

theorem alookup_aerase_self {α : Type} (m : List (String × α)) (k : String) :
    alookup (aerase m k) k = none := by
  simp [alookup_aerase]

theorem alookup_aerase_ne {α : Type} (m : List (String × α)) (k k' : String)
    (h : k' ≠ k) : alookup (aerase m k) k' = alookup m k' := by
  simp [alookup_aerase, h]


/-- The member list seen through the discard-then-delete-if-empty update
shared by the /leave, /join and remove_client paths. -/
theorem eraseOrSet_getD (rooms : List (String × List String)) (r : String)
    (m' : List String) (r' : String) :
    (alookup (if m' = [] then aerase rooms r else aset rooms r m') r').getD []
      = if r' = r then m' else (alookup rooms r').getD [] := by
  by_cases hf : m' = [] <;> by_cases hr' : r' = r <;>
    simp [hf, hr', alookup_aerase, alookup_aset]

theorem mem_filter_ne (l : List String) (u s : String) :
    u ∈ l.filter (· ≠ s) ↔ u ∈ l ∧ u ≠ s := by
  simp [List.mem_filter]

/-- After discarding s from the room its pointer names, s is in no member
set and everyone else still follows the pointer map. -/
theorem drop_member_prop (rooms : List (String × List String))
    (ur : List (String × String)) (s r : String) (mem : List String)
    (hur : alookup ur s = some r) (hrm : alookup rooms r = some mem)
    (h : RoomInvMaps rooms ur) :
    ∀ r' u, u ∈ (alookup (if mem.filter (· ≠ s) = [] then aerase rooms r
        else aset rooms r (mem.filter (· ≠ s))) r').getD []
      ↔ (alookup ur u = some r' ∧ u ≠ s) := by
  intro r' u
  rw [eraseOrSet_getD]
  by_cases hr' : r' = r
  · rw [if_pos hr', mem_filter_ne]
    have h' := h r u
    rw [hrm] at h'
    simp only [Option.getD_some] at h'
    rw [h', hr']
  · rw [if_neg hr']
    constructor
    · intro hin
      have hru := (h r' u).mp hin
      refine ⟨hru, fun hus => ?_⟩
      rw [hus, hur] at hru
      exact hr' (Option.some_inj.mp hru).symm
    · intro hx
      exact (h r' u).mpr hx.1

/-- When a user is registered in no room, that user is in no member set
and everyone else follows the pointer map. -/
theorem no_room_prop (rooms : List (String × List String))
    (ur : List (String × String)) (s : String)
    (hur : alookup ur s = none) (h : RoomInvMaps rooms ur) :
    ∀ r' u, u ∈ (alookup rooms r').getD [] ↔ (alookup ur u = some r' ∧ u ≠ s) := by
  intro r' u
  constructor
  · intro hin
    have hru := (h r' u).mp hin
    refine ⟨hru, fun hus => ?_⟩
    rw [hus, hur] at hru
    exact Option.noConfusion hru
  · intro hx
    exact (h r' u).mpr hx.1

/-- Erasing the pointer of a user who is in no member set restores the
invariant. -/
theorem roomInvMaps_of_dropped (rooms : List (String × List String))
    (ur : List (String × String)) (s : String)
    (h : ∀ r' u, u ∈ (alookup rooms r').getD [] ↔ (alookup ur u = some r' ∧ u ≠ s)) :
    RoomInvMaps rooms (aerase ur s) := by
  intro r' u
  rw [h r' u, alookup_aerase]
  by_cases hu : u = s
  · simp [hu]
  · simp [hu]

/-- Entering a room: adding the user to the target member set while
repointing the user restores the invariant, provided the user was in no
member set. -/
theorem roomInvMaps_enter (rooms : List (String × List String))
    (ur : List (String × String)) (s room : String)
    (h : ∀ r' u, u ∈ (alookup rooms r').getD [] ↔ (alookup ur u = some r' ∧ u ≠ s)) :
    RoomInvMaps
      (aset rooms room
        (if s ∈ (alookup rooms room).getD [] then (alookup rooms room).getD []
         else (alookup rooms room).getD [] ++ [s]))
      (aset ur s room) := by
  intro r' u
  rw [alookup_aset, alookup_aset]
  by_cases hu : u = s
  · rw [if_pos hu]
    by_cases hr' : r' = room
    · rw [if_pos hr']
      have hs : ¬ s ∈ (alookup rooms room).getD [] := fun hc => ((h room s).mp hc).2 rfl
      simp [hs, hu, hr']
    · rw [if_neg hr']
      have hnot : ¬ u ∈ (alookup rooms r').getD [] := fun hc => ((h r' u).mp hc).2 hu
      constructor
      · intro hc
        exact absurd hc hnot
      · intro hc
        exact absurd (Option.some_inj.mp hc).symm hr'
  · rw [if_neg hu]
    by_cases hr' : r' = room
    · rw [if_pos hr']
      have hmem : u ∈ (if s ∈ (alookup rooms room).getD [] then (alookup rooms room).getD []
          else (alookup rooms room).getD [] ++ [s]) ↔ u ∈ (alookup rooms room).getD [] := by
        by_cases hs : s ∈ (alookup rooms room).getD [] <;> simp [hs, hu]
      simp only [Option.getD_some]
      rw [hmem, h room u, hr']
      simp [hu]
    · rw [if_neg hr']
      rw [h r' u]
      simp [hu]

/-- /leave preserves the room-membership invariant. -/
theorem roomInv_cmdLeave (st : ServerState) (s : String) (h : RoomInv st) :
    RoomInv (cmdLeave st s).1 := by
  cases hur : alookup st.userRooms s with
  | none =>
    have hst : (cmdLeave st s).1 = st := by
      unfold cmdLeave
      rw [hur]
    rw [hst]
    exact h
  | some r =>
    cases hrm : alookup st.rooms r with
    | none =>
      have hst : (cmdLeave st s).1 = st := by
        unfold cmdLeave
        rw [hur]
        dsimp only
        rw [hrm]
      rw [hst]
      exact h
    | some mem =>
      have hst : (cmdLeave st s).1 =
          { st with
              rooms := if mem.filter (· ≠ s) = [] then aerase st.rooms r
                else aset st.rooms r (mem.filter (· ≠ s))
              userRooms := aerase st.userRooms s } := by
        unfold cmdLeave
        rw [hur]
        dsimp only
        rw [hrm]
      rw [hst]
      exact roomInvMaps_of_dropped _ _ s
        (drop_member_prop st.rooms st.userRooms s r mem hur hrm h)

/-- remove_client preserves the room-membership invariant (the disconnect,
kick and ban teardown path). -/
theorem roomInv_removeClient (st : ServerState) (s : String) (h : RoomInv st) :
    RoomInv (removeClient st s).1 := by
  cases hur : alookup st.userRooms s with
  | none =>
    have hst : (removeClient st s).1 =
        { st with
            clients := aerase st.clients s
            userRooms := aerase st.userRooms s } := by
      unfold removeClient
      rw [hur]
      cases alookup st.clients s <;> rfl
    rw [hst]
    exact roomInvMaps_of_dropped _ _ s (no_room_prop st.rooms st.userRooms s hur h)
  | some r =>
    cases hrm : alookup st.rooms r with
    | none =>
      exact absurd ((h r s).mpr hur) (by rw [hrm]; simp)
    | some mem =>
      have hmem : s ∈ mem := by
        have := (h r s).mpr hur
        rwa [hrm, Option.getD_some] at this
      have hst : (removeClient st s).1 =
          { st with
              clients := aerase st.clients s
              rooms := if mem.filter (· ≠ s) = [] then aerase st.rooms r
                else aset st.rooms r (mem.filter (· ≠ s))
              userRooms := aerase st.userRooms s } := by
        unfold removeClient
        rw [hur]
        dsimp only
        rw [hrm]
        simp only [Option.getD_some]
        rw [if_pos hmem]
        cases alookup st.clients s <;> rfl
      rw [hst]
      exact roomInvMaps_of_dropped _ _ s
        (drop_member_prop st.rooms st.userRooms s r mem hur hrm h)

/-- The /join body preserves the room-membership invariant whatever the
previous room was. -/
theorem roomInv_cmdJoinBody (st : ServerState) (s room : String) (h : RoomInv st) :
    RoomInv (cmdJoinBody st s room).1 := by
  cases hur : alookup st.userRooms s with
  | none =>
    have hst : (cmdJoinBody st s room).1 =
        { st with
            rooms := aset st.rooms room
              (if s ∈ (alookup st.rooms room).getD [] then (alookup st.rooms room).getD []
               else (alookup st.rooms room).getD [] ++ [s])
            userRooms := aset st.userRooms s room } := by
      unfold cmdJoinBody
      rw [hur]
    rw [hst]
    exact roomInvMaps_enter st.rooms st.userRooms s room
      (no_room_prop st.rooms st.userRooms s hur h)
  | some pr =>
    cases hrm : alookup st.rooms pr with
    | none =>
      exact absurd ((h pr s).mpr hur) (by rw [hrm]; simp)
    | some mem =>
      have hmem : s ∈ mem := by
        have := (h pr s).mpr hur
        rwa [hrm, Option.getD_some] at this
      unfold cmdJoinBody
      rw [hur]
      dsimp only
      rw [hrm]
      simp only [Option.getD_some]
      rw [if_pos hmem]
      dsimp only
      exact roomInvMaps_enter _ st.userRooms s room
        (drop_member_prop st.rooms st.userRooms s pr mem hur hrm h)

/-- /join preserves the room-membership invariant: the password gate and
the password-adoption step touch only room_passwords. -/
theorem roomInv_cmdJoin (st : ServerState) (s room pwd : String) (h : RoomInv st) :
    RoomInv (cmdJoin st s room pwd).1 := by
  unfold cmdJoin
  cases hc : alookup st.roomPasswords room with
  | some stored =>
    dsimp only
    by_cases hp : stored ≠ pwd
    · rw [if_pos hp]
      exact h
    · rw [if_neg hp]
      exact roomInv_cmdJoinBody st s room h
  | none =>
    dsimp only
    by_cases ha : pwd ≠ "" ∧ (alookup st.rooms room).isNone
    · rw [if_pos ha]
      exact roomInv_cmdJoinBody { st with roomPasswords := aset st.roomPasswords room pwd } s room h
    · rw [if_neg ha]
      exact roomInv_cmdJoinBody st s room h

/-- Every sequence of /join, /leave and disconnect operations preserves
the room-membership invariant. -/
theorem roomInv_applyOps (st : ServerState) (ops : List MembershipOp) (h : RoomInv st) :
    RoomInv (applyOps st ops) := by
  induction ops generalizing st with
  | nil => exact h
  | cons op t ih =>
    cases op with
    | join s r p => exact ih _ (roomInv_cmdJoin st s r p h)
    | leave s => exact ih _ (roomInv_cmdLeave st s h)
    | disconnect u => exact ih _ (roomInv_removeClient st u h)

/-! ## Claim C1 -/

/-- Claim C1 (code bug): a rejected authentication attempt for a username
with an already-active session does not leave the registry unchanged.
With alice connected, a second login as alice (correct credentials) is
rejected in handle_join as a duplicate username — but the finally clause
of handle_client then runs remove_client on the attempted username, which
unregisters the EXISTING alice session, closes her connection and
broadcasts a leave notice.  The spec requires the active session to
remain registered and connected. -/
theorem c1_failed_auth_tears_down_active_session :
    (authPhase [("alice", "pass1234")] stAlice 50 ⟨"alice", "pass1234", false⟩).2.2.2 = false
    ∧ alookup (authPhase [("alice", "pass1234")] stAlice 50
        ⟨"alice", "pass1234", false⟩).2.1.clients "alice" = none
    ∧ Out.closeUser "alice"
        ∈ (authPhase [("alice", "pass1234")] stAlice 50 ⟨"alice", "pass1234", false⟩).2.2.1 := by
  refine ⟨rfl, rfl, ?_⟩
  decide

/-! ## Claim C2 -/

/-- Claim C2 (amended): the room-membership invariant — each room's member
set is exactly the set of users whose current-room pointer names it, so a
user is in at most one member set — is preserved by every sequence of
/join, /leave and disconnect (kick) operations.  The /create command of
the claim is excluded: it breaks the invariant (see the counterexample). -/
theorem c2_invariant_join_leave_disconnect (st : ServerState)
    (ops : List MembershipOp) (h : RoomInv st) :
    RoomInv (applyOps st ops)
    ∧ (∀ u r1 r2, u ∈ membersOf (applyOps st ops) r1 →
        u ∈ membersOf (applyOps st ops) r2 → r1 = r2) := by
  have hInv := roomInv_applyOps st ops h
  refine ⟨hInv, fun u r1 r2 h1 h2 => ?_⟩
  have e1 := (hInv r1 u).mp h1
  have e2 := (hInv r2 u).mp h2
  rw [e1] at e2
  exact Option.some_inj.mp e2

theorem c2_invariant_join_leave_disconnect_witness :
    RoomInv stEmpty
    ∧ RoomInv (applyOps stEmpty
        [.join "alice" "a" "", .join "bob" "a" "", .leave "alice", .disconnect "bob"]) := by
  have h0 : RoomInv stEmpty := by
    intro r u
    simp [stEmpty, alookup]
  exact ⟨h0, (c2_invariant_join_leave_disconnect stEmpty _ h0).1⟩

/-- Claim C2 (counterexample): /create does not remove the caller from the
previous room.  alice joins room a and then creates room b: she is left in
both member sets while her pointer names b, so the claimed invariant fails
after a sequence that includes /create. -/
theorem c2_counterexample :
    "alice" ∈ membersOf (handleCommand (handleCommand stAlice "alice" "/join a" 0).1
        "alice" "/create b" 0).1 "a"
    ∧ "alice" ∈ membersOf (handleCommand (handleCommand stAlice "alice" "/join a" 0).1
        "alice" "/create b" 0).1 "b"
    ∧ alookup (handleCommand (handleCommand stAlice "alice" "/join a" 0).1
        "alice" "/create b" 0).1.userRooms "alice" = some "b"
    ∧ ¬ RoomInv (handleCommand (handleCommand stAlice "alice" "/join a" 0).1
        "alice" "/create b" 0).1 := by
  refine ⟨by decide, by decide, rfl, fun h => ?_⟩
  have h1 := (h "a" "alice").mp (by decide)
  have h2 : alookup (handleCommand (handleCommand stAlice "alice" "/join a" 0).1
      "alice" "/create b" 0).1.userRooms "alice" = some "b" := rfl
  rw [h2] at h1
  exact absurd (Option.some_inj.mp h1) (by decide)

/-! ## Claim C3 -/

/-- Claim C3 (counterexample): the server performs no size check on file
requests.  A file request of 204801 bytes (above MAX_FILE_SIZE = 204800)
that reaches the server is logged and delivered to the sender's room mate
bob, and no size-limit error is produced — so the server does not reject
oversized uploads; the gate lives in the client. -/
theorem c3_counterexample :
    MAX_FILE_SIZE < 204801
    ∧ (processRequest stAliceBob "alice" 5 (.fileReq "All" "big.bin" "AAAA" 204801)).2
      = [.log "FILE: alice sent big.bin (204801B) to All",
         .reply "bob" (.fileData "All" "big.bin" "AAAA" 204801)] := by
  exact ⟨by decide, rfl⟩

/-- Claim C3 (amended): the size gate is enforced by the client: for every
upload whose size exceeds MAX_FILE_SIZE, upload_file raises the File Too
Large dialog naming the 200 KB limit and sends nothing, so no recipient
ever receives it.  The server itself forwards any file request it
receives without a size check. -/
theorem c3_client_rejects_oversized (size : Nat) (target filename dataB64 : String)
    (h : MAX_FILE_SIZE < size) :
    clientUploadFile size target filename dataB64
      = .errorDialog "File Too Large" "File must be smaller than 200 KB" := by
  unfold clientUploadFile
  rw [if_pos h]
  decide

theorem c3_client_rejects_oversized_witness :
    MAX_FILE_SIZE < 204801
    ∧ clientUploadFile 204801 "All" "big.bin" "AAAA"
      = .errorDialog "File Too Large" "File must be smaller than 200 KB" :=
  ⟨by decide, c3_client_rejects_oversized 204801 "All" "big.bin" "AAAA" (by decide)⟩

/-! ## Claim C4 -/

/-- Claim C4 (counterexample): the ban check does NOT precede the
register-or-credential check.  A banned username with the register flag
sails past every check that the handshake performs before handle_join and
creates an account: the credential db gains the mallory entry and the
reply is the account-created notice, while the claimed order would have
rejected the attempt as banned (the claim-order variant leaves the db
unchanged). -/
theorem c4_counterexample :
    (authPhase [] stBannedMallory 0 ⟨"mallory", "hunter2", true⟩).1
      = [("mallory", "hunter2")]
    ∧ (authPhaseClaimOrder [] stBannedMallory 0 ⟨"mallory", "hunter2", true⟩).1 = []
    ∧ (authPhase [] stBannedMallory 0 ⟨"mallory", "hunter2", true⟩).2.2.1
      = [.toConn (.system "Account mallory created successfully! Please login."),
         .closeConn] := by
  exact ⟨rfl, rfl, rfl⟩

/-- Claim C4 (amended): the validation order is username non-empty and at
least 3 characters, then password non-empty and at least 4 characters,
then directly the register-or-credential check; the ban check runs only
afterwards, inside handle_join.  Hence the handshake agrees with the
claimed order exactly when the username is not banned, and for a banned
fresh username the register flag still creates the account before any ban
rejection. -/
theorem c4_checks_order (users : UsersDb) (st : ServerState) (now : Rat)
    (req : AuthRequest) :
    (pyStrip req.username ∉ st.banned →
      authPhase users st now req = authPhaseClaimOrder users st now req)
    ∧ (req.register = true → 3 ≤ (pyStrip req.username).length →
        4 ≤ (pyStrip req.password).length →
        alookup users (pyStrip req.username) = none →
        (authPhase users st now req).1
          = aset users (pyStrip req.username) (pyStrip req.password)) := by
  constructor
  · intro hban
    unfold authPhase authPhaseClaimOrder
    rw [if_neg hban]
  · intro hreg hul hpl hfresh
    unfold authPhase
    rw [if_neg (fun he => by rw [he] at hul; simp at hul),
        if_neg (by omega),
        if_neg (fun he => by rw [he] at hpl; simp at hpl),
        if_neg (by omega),
        if_pos hreg]
    simp [registerUser, authFinally, hfresh]

theorem c4_checks_order_witness :
    "zoe" ∉ stBannedMallory.banned
    ∧ authPhase [] stBannedMallory 0 ⟨"zoe", "pw1234", false⟩
      = authPhaseClaimOrder [] stBannedMallory 0 ⟨"zoe", "pw1234", false⟩ :=
  ⟨by decide,
   (c4_checks_order [] stBannedMallory 0 ⟨"zoe", "pw1234", false⟩).1 (by decide)⟩

/-! ## Claim C5 -/

/-- The auto-unmute step followed by the mute test reports not-muted once
muted_until is in the past or now. -/
theorem isMutedNow_refresh_false (st : ServerState) (u : String) (info : ClientInfo)
    (now : Rat) (hc : alookup st.clients u = some info)
    (hmute : info.mutedUntil ≤ now) (hnow : 0 ≤ now) :
    isMutedNow (muteRefresh st u now) u now = false := by
  unfold muteRefresh isMutedNow
  rw [hc]
  dsimp only
  by_cases hlt : info.mutedUntil < now
  · rw [if_pos hlt]
    dsimp only
    rw [alookup_aset_self]
    dsimp only
    exact decide_eq_false (not_lt.mpr hnow)
  · rw [if_neg hlt]
    rw [hc]
    dsimp only
    exact decide_eq_false (not_lt.mpr hmute)

/-- Claim C5 (confirmed): with muted_until = t + s (as /mute sets it when
muting for s seconds at time t), a broadcast or private request at time tq
with t ≤ tq < t + s is answered only with the mute notice — no delivery to
anyone, no log entry, and the registry state unchanged — while a request
at any tq ≥ t + s (the window is exclusive at t + s) is handled by the
normal dispatcher. -/
theorem c5_mute_window (st : ServerState) (u : String) (info : ClientInfo)
    (t s tq : Rat) (req : Request)
    (hc : alookup st.clients u = some info) (hm : info.mutedUntil = t + s)
    (ht : 0 ≤ t) (hs : 0 ≤ s) (hk : isChatKind req = true) :
    (t ≤ tq → tq < t + s →
      processRequest st u tq req = (st, [.reply u (.system "You are muted.")]))
    ∧ (t + s ≤ tq →
      processRequest st u tq req = dispatchActive (muteRefresh st u tq) u tq req) := by
  constructor
  · intro h1 h2
    have href : muteRefresh st u tq = st := by
      unfold muteRefresh
      rw [hc]
      dsimp only
      rw [if_neg (by rw [hm]; exact not_lt.mpr (le_of_lt h2))]
    have hmut : isMutedNow st u tq = true := by
      unfold isMutedNow
      rw [hc]
      dsimp only
      exact decide_eq_true (by rw [hm]; exact h2)
    unfold processRequest
    rw [hc]
    dsimp only
    rw [href, hmut, hk]
    rfl
  · intro h1
    have hnow : (0:Rat) ≤ tq := le_trans (by linarith) h1
    have hmut := isMutedNow_refresh_false st u info tq hc (by rw [hm]; exact h1) hnow
    unfold processRequest
    rw [hc]
    dsimp only
    rw [hmut]
    rfl

theorem c5_mute_window_witness :
    (processRequest stMutedAlice "alice" 5 (.broadcastReq "hi")
      = (stMutedAlice, [.reply "alice" (.system "You are muted.")]))
    ∧ (processRequest stMutedAlice "alice" 11 (.broadcastReq "hi")
      = dispatchActive (muteRefresh stMutedAlice "alice" 11) "alice" 11
          (.broadcastReq "hi")) :=
  ⟨(c5_mute_window stMutedAlice "alice" ⟨10, false, 0⟩ 4 6 5 (.broadcastReq "hi")
      rfl (by norm_num) (by norm_num) (by norm_num) rfl).1 (by norm_num) (by norm_num),
   (c5_mute_window stMutedAlice "alice" ⟨10, false, 0⟩ 4 6 11 (.broadcastReq "hi")
      rfl (by norm_num) (by norm_num) (by norm_num) rfl).2 (by norm_num)⟩

/-! ## Claim C6 -/

/-- The auto-unmute step touches only the sender's own entry, so whether a
target is registered is unchanged by it. -/
theorem alookup_muteRefresh_isSome (st : ServerState) (u now B) :
    (alookup (muteRefresh st u now).clients B).isSome
      = (alookup st.clients B).isSome := by
  unfold muteRefresh
  cases hc : alookup st.clients u with
  | none => rfl
  | some info =>
    dsimp only
    by_cases hlt : info.mutedUntil < now
    · rw [if_pos hlt]
      dsimp only
      rw [alookup_aset]
      by_cases hBA : B = u
      · rw [if_pos hBA, hBA, hc]
        rfl
      · rw [if_neg hBA]
    · rw [if_neg hlt]

/-- Claim C6 (confirmed): a private request from a non-muted sender A with
target B delivers, when B is registered, exactly one copy to B and exactly
one echo to A — both the same payload, carrying the same message text and
the same server-assigned timestamp — plus one log entry; when B is not
registered, A receives only the not-found system error and nothing is
delivered to anyone. -/
theorem c6_private_routing (st : ServerState) (A B msg : String) (now : Rat)
    (info : ClientInfo) (hA : alookup st.clients A = some info)
    (hmute : info.mutedUntil ≤ now) (hnow : 0 ≤ now) :
    ((alookup st.clients B).isSome = true →
      processRequest st A now (.privateReq B msg)
        = (muteRefresh st A now,
           [.reply B (.priv A msg now), .reply A (.priv A msg now),
            .log (A ++ " -> " ++ B ++ ": " ++ msg)]))
    ∧ (alookup st.clients B = none →
      processRequest st A now (.privateReq B msg)
        = (muteRefresh st A now,
           [.reply A (.system ("User " ++ B ++ " not found."))])) := by
  have hmut := isMutedNow_refresh_false st A info now hA hmute hnow
  constructor
  · intro hB
    unfold processRequest
    rw [hA]
    dsimp only
    rw [hmut]
    have hB' : (alookup (muteRefresh st A now).clients B).isSome = true := by
      rw [alookup_muteRefresh_isSome, hB]
    obtain ⟨iB, hiB⟩ := Option.isSome_iff_exists.mp hB'
    rw [if_neg (by simp)]
    unfold dispatchActive
    dsimp only
    rw [hiB]
  · intro hB
    unfold processRequest
    rw [hA]
    dsimp only
    rw [hmut]
    have hB' : alookup (muteRefresh st A now).clients B = none := by
      cases hx : alookup (muteRefresh st A now).clients B with
      | none => rfl
      | some v =>
        have hiso := alookup_muteRefresh_isSome st A now B
        rw [hx, hB] at hiso
        simp at hiso
    rw [if_neg (by simp)]
    unfold dispatchActive
    dsimp only
    rw [hB']

theorem c6_private_routing_witness :
    (processRequest stAliceBob "alice" 5 (.privateReq "bob" "yo")
      = (muteRefresh stAliceBob "alice" 5,
         [.reply "bob" (.priv "alice" "yo" 5), .reply "alice" (.priv "alice" "yo" 5),
          .log "alice -> bob: yo"]))
    ∧ (processRequest stAliceBob "alice" 5 (.privateReq "zed" "yo")
      = (muteRefresh stAliceBob "alice" 5,
         [.reply "alice" (.system "User zed not found.")])) :=
  ⟨(c6_private_routing stAliceBob "alice" "bob" "yo" 5 ⟨0, false, 0⟩ rfl (by norm_num)
      (by norm_num)).1 (by decide),
   (c6_private_routing stAliceBob "alice" "zed" "yo" 5 ⟨0, false, 0⟩ rfl (by norm_num)
      (by norm_num)).2 (by decide)⟩

/-! ## Claim C7 -/

/-- Claim C7 (counterexample): a non-admin issuing /mute receives the
admin-required error AND the generic unknown-command error: the condition
of the elif arm evaluates admin_required() (which sends the notice) and is
then false, so control falls through the chain into the final else.  The
claim asserts the reply is the admin-required error and NOT the generic
unknown-command error, which is false; the state is indeed unchanged. -/
theorem c7_counterexample :
    handleCommand stAlice "alice" "/mute bob 5" 0
      = (stAlice, [.reply "alice" (.system "Admin rights required."),
                   .reply "alice" (.system "Unknown command. Use /help for help.")])
    ∧ handleCommand stAlice "alice" "/frobnicate" 0
      = (stAlice, [.reply "alice" (.system "Unknown command. Use /help for help.")]) :=
  ⟨rfl, rfl⟩

/-- Claim C7 (amended): when a registered non-admin sender issues any of
the admin-gated commands, the sender receives the distinct admin-required
error followed by the generic unknown-command error (the dispatch falls
through), and the registry state is unchanged; when any registered sender
issues an unrecognized command, the sender receives only the generic
unknown-command error and the state is unchanged. -/
theorem c7_admin_gating (st : ServerState) (sender cmd : String) (now : Rat)
    (info : ClientInfo) (hc : alookup st.clients sender = some info) :
    (info.isAdmin = false → pyLower ((pySplitN 1 cmd).headD "") ∈ adminCommands →
      handleCommand st sender cmd now
        = (st, [.reply sender (.system "Admin rights required."),
                .reply sender (.system "Unknown command. Use /help for help.")]))
    ∧ (pyLower ((pySplitN 1 cmd).headD "") ∉ allCommands → pySplitN 1 cmd ≠ [] →
      handleCommand st sender cmd now
        = (st, [.reply sender (.system "Unknown command. Use /help for help.")])) := by
  constructor
  · intro hadm hmem
    cases hp : pySplitN 1 cmd with
    | nil =>
      rw [hp] at hmem
      exact absurd hmem (by decide)
    | cons c0 rest =>
      rw [hp] at hmem
      simp only [List.headD_cons] at hmem
      unfold handleCommand
      rw [hp]
      dsimp only
      rw [hc]
      dsimp only
      simp only [adminCommands, List.mem_cons, List.not_mem_nil, or_false] at hmem
      rcases hmem with e | e | e | e | e | e | e <;>
        rw [e] <;> simp [hadm, adminCommands]
  · intro hmem hne
    cases hp : pySplitN 1 cmd with
    | nil => exact absurd hp hne
    | cons c0 rest =>
      rw [hp] at hmem
      simp only [List.headD_cons] at hmem
      unfold handleCommand
      rw [hp]
      dsimp only
      rw [hc]
      dsimp only
      simp only [allCommands, List.mem_cons, List.not_mem_nil, or_false, not_or] at hmem
      obtain ⟨d1, d2, d3, d4, d5, d6, d7, d8, d9, d10, d11, d12, d13, d14, d15, d16,
        d17, d18⟩ := hmem
      simp [d1, d2, d3, d4, d5, d6, d7, d8, d9, d10, d11, d12, d13, d14, d15, d16,
        d17, d18, adminCommands]

theorem c7_admin_gating_witness :
    pyLower ((pySplitN 1 "/kick bob").headD "") ∈ adminCommands
    ∧ handleCommand stAlice "alice" "/kick bob" 0
      = (stAlice, [.reply "alice" (.system "Admin rights required."),
                   .reply "alice" (.system "Unknown command. Use /help for help.")]) :=
  ⟨by decide,
   (c7_admin_gating stAlice "alice" "/kick bob" 0 ⟨0, false, 0⟩ rfl).1 rfl (by decide)⟩

/-! ## Claim C8 -/

/-- Claim C8 (counterexample): when the handler body of a broadcast
request raises, the Active-loop except clause only logs to the server GUI:
the sender receives no system message.  The loop does continue, but the
claimed error report to the sender does not exist for non-command kinds. -/
theorem c8_counterexample :
    (exceptionOutcome "alice" (.broadcastReq "hi") "boom").1 = []
    ∧ (exceptionOutcome "alice" (.broadcastReq "hi") "boom").2 = true :=
  ⟨rfl, rfl⟩

/-- Claim C8 (amended): an exception while handling one request never
terminates the read loop; only for command requests does the sender
receive a system message reporting the error (from the except clause
inside handle_command) — for broadcast, private, typing and file requests
the exception is caught and nothing is sent to the sender. -/
theorem c8_exception_isolation (sender : String) (req : Request) (e : String) :
    (exceptionOutcome sender req e).2 = true
    ∧ (isCommandKind req = true →
        (exceptionOutcome sender req e).1
          = [.reply sender (.system ("Command error: " ++ e))])
    ∧ (isCommandKind req = false → (exceptionOutcome sender req e).1 = []) := by
  cases req <;> simp [exceptionOutcome, isCommandKind]

theorem c8_exception_isolation_witness :
    (exceptionOutcome "alice" (.commandReq "/leave") "KeyError").2 = true
    ∧ (exceptionOutcome "alice" (.commandReq "/leave") "KeyError").1
      = [.reply "alice" (.system "Command error: KeyError")] :=
  ⟨(c8_exception_isolation "alice" (.commandReq "/leave") "KeyError").1,
   (c8_exception_isolation "alice" (.commandReq "/leave") "KeyError").2.1 rfl⟩

/-! ## Claim C9 -/

/-- Claim C9 (confirmed): the mute gate inspects only broadcast and
private kinds, so while a mute is active a command, typing or file request
is handled exactly by the normal dispatcher — in particular a muted user
can still send file payloads to their room or a private target. -/
theorem c9_mute_scope (st : ServerState) (u : String) (info : ClientInfo)
    (now : Rat) (req : Request) (hc : alookup st.clients u = some info)
    (hmuted : now < info.mutedUntil) (hk : isChatKind req = false) :
    processRequest st u now req = dispatchActive st u now req := by
  have href : muteRefresh st u now = st := by
    unfold muteRefresh
    rw [hc]
    dsimp only
    rw [if_neg (not_lt.mpr (le_of_lt hmuted))]
  unfold processRequest
  rw [hc]
  dsimp only
  rw [href, hk]
  simp

theorem c9_mute_scope_witness :
    ((5:Rat) < 10)
    ∧ processRequest stMutedAlice "alice" 5 (.fileReq "All" "f.txt" "QQ" 10)
      = dispatchActive stMutedAlice "alice" 5 (.fileReq "All" "f.txt" "QQ" 10)
    ∧ Out.reply "bob" (.fileData "All" "f.txt" "QQ" 10)
      ∈ (processRequest stMutedAlice "alice" 5 (.fileReq "All" "f.txt" "QQ" 10)).2 :=
  ⟨by norm_num,
   c9_mute_scope stMutedAlice "alice" ⟨10, false, 0⟩ 5 (.fileReq "All" "f.txt" "QQ" 10)
     rfl (by norm_num) rfl,
   by decide⟩

/-! ## Claim C10 -/

/-- Claim C10 (confirmed): when the sole member u of the
password-protected room r leaves — by /leave, by disconnect, or by a
/join that moves u into another room r2 — the room is auto-deleted from
the rooms map while its entry in room_passwords is left untouched.
Consequently a later /join naming r is still gated on the old password p
(a different password q is rejected with Incorrect room password and no
state change), and a /create of r without a password succeeds and the
re-created room silently inherits the old password p. -/
theorem c10_room_password_survives (st : ServerState) (u v w r r2 p q : String)
    (hmem : alookup st.rooms r = some [u]) (hptr : alookup st.userRooms u = some r)
    (hpwd : alookup st.roomPasswords r = some p)
    (hr2 : r2 ≠ r) (hr2p : alookup st.roomPasswords r2 = none) (hq : q ≠ p) :
    (alookup (cmdLeave st u).1.rooms r = none
      ∧ alookup (cmdLeave st u).1.roomPasswords r = some p)
    ∧ (alookup (removeClient st u).1.rooms r = none
      ∧ alookup (removeClient st u).1.roomPasswords r = some p)
    ∧ (alookup (cmdJoin st u r2 "").1.rooms r = none
      ∧ alookup (cmdJoin st u r2 "").1.roomPasswords r = some p)
    ∧ (cmdJoin (cmdLeave st u).1 v r q
      = ((cmdLeave st u).1, [.reply v (.system "Incorrect room password.")]))
    ∧ (alookup (cmdCreate (cmdLeave st u).1 w r "").1.roomPasswords r = some p
      ∧ alookup (cmdCreate (cmdLeave st u).1 w r "").1.rooms r = some [w]) := by
  have hfe : List.filter (fun x => x ≠ u) [u] = [] := by simp
  have hst1 : (cmdLeave st u).1
      = { st with rooms := aerase st.rooms r, userRooms := aerase st.userRooms u } := by
    unfold cmdLeave
    rw [hptr]
    dsimp only
    rw [hmem]
    dsimp only
    rw [hfe]
    rfl
  refine ⟨⟨?_, ?_⟩, ⟨?_, ?_⟩, ⟨?_, ?_⟩, ?_, ⟨?_, ?_⟩⟩
  · rw [hst1]
    exact alookup_aerase_self st.rooms r
  · rw [hst1]
    exact hpwd
  · have hst2 : (removeClient st u).1
        = { st with
              clients := aerase st.clients u
              rooms := aerase st.rooms r
              userRooms := aerase st.userRooms u } := by
      unfold removeClient
      rw [hptr]
      dsimp only
      rw [hmem]
      simp only [Option.getD_some]
      rw [if_pos (by simp : u ∈ [u])]
      rw [hfe]
      cases alookup st.clients u <;> rfl
    rw [hst2]
    exact alookup_aerase_self st.rooms r
  · have hst2 : (removeClient st u).1.roomPasswords = st.roomPasswords := by
      unfold removeClient
      cases alookup st.clients u <;> rfl
    rw [hst2]
    exact hpwd
  · have hrr2 : r ≠ r2 := Ne.symm hr2
    unfold cmdJoin
    rw [hr2p]
    dsimp only
    rw [if_neg (by simp)]
    unfold cmdJoinBody
    rw [hptr]
    dsimp only
    rw [hmem]
    simp only [Option.getD_some]
    rw [if_pos (by simp : u ∈ [u])]
    dsimp only
    simp [hfe, alookup_aset, alookup_aerase, hrr2]
  · have hst3 : (cmdJoin st u r2 "").1.roomPasswords = st.roomPasswords := by
      unfold cmdJoin
      rw [hr2p]
      dsimp only
      rw [if_neg (by simp)]
      unfold cmdJoinBody
      rw [hptr]
      dsimp only
      rw [hmem]
      simp only [Option.getD_some]
      rw [if_pos (by simp : u ∈ [u])]
    rw [hst3]
    exact hpwd
  · rw [hst1]
    unfold cmdJoin
    have hplook : alookup ({ st with rooms := aerase st.rooms r, userRooms := aerase st.userRooms u } : ServerState).roomPasswords r = some p := hpwd
    rw [hplook]
    dsimp only
    rw [if_pos (Ne.symm hq)]
  · have hcr : (cmdCreate (cmdLeave st u).1 w r "").1.roomPasswords
        = (cmdLeave st u).1.roomPasswords := by
      rw [hst1]
      unfold cmdCreate
      rw [show alookup ({ st with rooms := aerase st.rooms r, userRooms := aerase st.userRooms u } : ServerState).rooms r = none from alookup_aerase_self st.rooms r]
      rfl
    rw [hcr, hst1]
    exact hpwd
  · rw [hst1]
    unfold cmdCreate
    rw [show alookup ({ st with rooms := aerase st.rooms r, userRooms := aerase st.userRooms u } : ServerState).rooms r = none from alookup_aerase_self st.rooms r]
    dsimp only
    exact alookup_aset_self _ r [w]

theorem c10_room_password_survives_witness :
    (alookup stSolo.rooms "g" = some ["uma"]
      ∧ alookup stSolo.userRooms "uma" = some "g"
      ∧ alookup stSolo.roomPasswords "g" = some "pw1")
    ∧ (alookup (cmdLeave stSolo "uma").1.rooms "g" = none
      ∧ alookup (cmdLeave stSolo "uma").1.roomPasswords "g" = some "pw1") :=
  ⟨⟨rfl, rfl, rfl⟩,
   (c10_room_password_survives stSolo "uma" "vic" "wes" "g" "h" "pw1" "bad"
     rfl rfl rfl (by decide) rfl (by decide)).1⟩

end PyChat
